import Mathlib

/-!
Verification development for the uidam-portal active-session lifecycle
feature.  The definitions below are a shallow embedding of:

* `src/services/sessionService.ts`  — the session API gateway
  (`SessionService.getPrefix`, `getActiveSessions`, `terminateSessions`,
  `getAdminActiveSessions`, `terminateAdminSessions`);
* `src/features/session-management/ActiveSessionsManagement.tsx` — the
  self-service session view-state controller (fetch, confirm dialog,
  termination handlers, auto-refresh timer);
* the admin sessions modal component (`AdminSessionsModal`) — the admin
  view of another user's sessions.

Network effects are made explicit: the gateway takes the HTTP transport
as a function argument, and each controller handler returns, next to the
updated component state, the list of gateway calls it issued.
-/

/-- Wire shape of one active session (TS interface `ActiveSession`):
`sessionId`, `deviceInfo`, optional `browser`/`os`, `ipAddress`, optional
`location`, `loginTime`, `lastActivity`, `isCurrent`. -/
structure ActiveSession where
  sessionId : String
  deviceInfo : String
  browser : Option String := none
  os : Option String := none
  ipAddress : String
  location : Option String := none
  loginTime : String
  lastActivity : String
  isCurrent : Bool
deriving Repr, DecidableEq

/-- Wire shape of the list-sessions response (TS `SessionsResponse`:
`{ sessions: ActiveSession[], totalCount: number }`).  The `sessions`
field is modelled as an `Option` because, at runtime, a malformed success
response may carry `null`/`undefined` there — exactly the case the
controllers defend against with `response.sessions || []`. -/
structure SessionsResponse where
  sessions : Option (List ActiveSession)
  totalCount : Nat
deriving Repr, DecidableEq

/-- A JavaScript thrown value as seen by the `catch (err: unknown)`
blocks: either an `Error` carrying a message, or some non-`Error` value. -/
inductive Thrown
  | jsError (message : String)
  | other
deriving Repr, DecidableEq

/-- The controllers' error-message extraction:
`err instanceof Error ? err.message : fallback`. -/
def errorMessageOr (fallback : String) : Thrown → String
  | .jsError m => m
  | .other => fallback

/-- HTTP method of a gateway request (`authServerApi.get` / `.post`). -/
inductive HttpMethod
  | get
  | post
deriving Repr, DecidableEq

/-- Request body of a gateway call. -/
inductive RequestBody
  | empty
  | tokenIds (ids : List String)
  | username (u : String)
  | usernameTokenIds (u : String) (ids : List String)
deriving Repr, DecidableEq

/-- One outbound HTTP request issued by the gateway. -/
structure HttpRequest where
  method : HttpMethod
  url : String
  body : RequestBody
deriving Repr, DecidableEq

/-- Runtime configuration consumed by the gateway.  The single field
models `getConfig().REACT_APP_SESSION_API_PREFIX` from `runtimeConfig`
(`none` when the value is not configured). -/
structure RuntimeConfig where
  sessionApiPathConfig : Option String
deriving Repr, DecidableEq

/-- `SessionService.getPrefix`: the configured API path root, falling
back to `"/sdp"` when absent (`getConfig().REACT_APP_SESSION_API_PREFIX
?? '/sdp'`). -/
def apiBasePath (cfg : RuntimeConfig) : String :=
  cfg.sessionApiPathConfig.getD "/sdp"

/-- Request built by `SessionService.getActiveSessions`:
`GET {prefix}/self/tokens/active`, no body. -/
def selfActiveRequest (cfg : RuntimeConfig) : HttpRequest :=
  { method := .get, url := apiBasePath cfg ++ "/self/tokens/active", body := .empty }

/-- Request built by `SessionService.terminateSessions`:
`POST {prefix}/self/tokens/invalidate` with body `{ tokenIds }`. -/
def selfInvalidateRequest (cfg : RuntimeConfig) (tokenIds : List String) : HttpRequest :=
  { method := .post, url := apiBasePath cfg ++ "/self/tokens/invalidate",
    body := .tokenIds tokenIds }

/-- Request built by `SessionService.getAdminActiveSessions`:
`POST {prefix}/admin/tokens/active` with body `{ username }`. -/
def adminActiveRequest (cfg : RuntimeConfig) (username : String) : HttpRequest :=
  { method := .post, url := apiBasePath cfg ++ "/admin/tokens/active",
    body := .username username }

/-- Request built by `SessionService.terminateAdminSessions`:
`POST {prefix}/admin/tokens/invalidate` with body `{ username, tokenIds }`. -/
def adminInvalidateRequest (cfg : RuntimeConfig) (username : String)
    (tokenIds : List String) : HttpRequest :=
  { method := .post, url := apiBasePath cfg ++ "/admin/tokens/invalidate",
    body := .usernameTokenIds username tokenIds }

/-- `SessionService.getActiveSessions`.  The `try { return response }
catch (error) { console.error(...); throw error }` structure: the
transport's success value is returned as-is and its error is re-thrown
as-is (logging is the only effect of the catch). -/
def getActiveSessions {ε : Type} (cfg : RuntimeConfig)
    (transport : HttpRequest → Except ε SessionsResponse) :
    Except ε SessionsResponse :=
  match transport ( selfActiveRequest cfg) with
  | .ok response => .ok response
  | .error e => .error e

/-- `SessionService.terminateSessions`: POST the token ids, propagate
success (no payload) and re-throw errors unchanged. -/
def terminateSessions {ε : Type} (cfg : RuntimeConfig)
    (transport : HttpRequest → Except ε Unit) (tokenIds : List String) :
    Except ε Unit :=
  match transport ( selfInvalidateRequest cfg tokenIds) with
  | .ok u => .ok u
  | .error e => .error e

/-- `SessionService.getAdminActiveSessions`. -/
def getAdminActiveSessions {ε : Type} (cfg : RuntimeConfig)
    (transport : HttpRequest → Except ε SessionsResponse) (username : String) :
    Except ε SessionsResponse :=
  match transport ( adminActiveRequest cfg username) with
  | .ok response => .ok response
  | .error e => .error e

/-- `SessionService.terminateAdminSessions`. -/
def terminateAdminSessions {ε : Type} (cfg : RuntimeConfig)
    (transport : HttpRequest → Except ε Unit) (username : String)
    (tokenIds : List String) : Except ε Unit :=
  match transport ( adminInvalidateRequest cfg username tokenIds) with
  | .ok u => .ok u
  | .error e => .error e

/-- Claim C6: for every gateway operation (list own sessions, invalidate
own sessions, list a named user's sessions, invalidate a named user's
sessions), when the underlying transport call fails, the operation fails
by propagating the transport error unchanged — the same error value,
with no translation or wrapping at the gateway layer. -/
theorem C6_gateway_error_propagation {ε : Type} (cfg : RuntimeConfig) (e : ε)
    (tA tC : HttpRequest → Except ε SessionsResponse)
    (tB tD : HttpRequest → Except ε Unit)
    (ids : List String) (u : String) :
    (tA ( selfActiveRequest cfg) = .error e →
      getActiveSessions cfg tA = .error e)
    ∧ (tB ( selfInvalidateRequest cfg ids) = .error e →
      terminateSessions cfg tB ids = .error e)
    ∧ (tC ( adminActiveRequest cfg u) = .error e →
      getAdminActiveSessions cfg tC u = .error e)
    ∧ (tD ( adminInvalidateRequest cfg u ids) = .error e →
      terminateAdminSessions cfg tD u ids = .error e) := by
  refine ⟨fun h => ?_, fun h => ?_, fun h => ?_, fun h => ?_⟩
  · simp [getActiveSessions, h]
  · simp [terminateSessions, h]
  · simp [getAdminActiveSessions, h]
  · simp [terminateAdminSessions, h]

/-- Witness for C6 at a concrete configuration and failing transport. -/
theorem C6_gateway_error_propagation_witness :
    getActiveSessions { sessionApiPathConfig := none }
      (fun _ => (.error "Network error" : Except String SessionsResponse))
      = .error "Network error"
    ∧ terminateSessions { sessionApiPathConfig := none }
      (fun _ => (.error "Termination failed" : Except String Unit)) ["token-1"]
      = .error "Termination failed" := by
  refine ⟨?_, ?_⟩
  · exact (C6_gateway_error_propagation { sessionApiPathConfig := none }
      "Network error" (fun _ => .error "Network error") (fun _ => .error "Network error")
      (fun _ => .error "Termination failed") (fun _ => .error "Termination failed")
      ["token-1"] "testuser").1 rfl
  · exact (C6_gateway_error_propagation { sessionApiPathConfig := none }
      "Termination failed" (fun _ => .error "Network error") (fun _ => .error "Network error")
      (fun _ => .error "Termination failed") (fun _ => .error "Termination failed")
      ["token-1"] "testuser").2.1 rfl

/-- Claim C8: the gateway's endpoint path root is read from externally
supplied runtime configuration, defaulting to `"/sdp"` when the
configured value is absent, and each of the four operations sends its
request to the configured root followed by its fixed suffix
(`/self/tokens/active`, `/self/tokens/invalidate`, `/admin/tokens/active`,
`/admin/tokens/invalidate`); the operation's outcome is exactly the
transport's answer on that one request. -/
theorem C8_url_construction {ε : Type} (cfg : RuntimeConfig) (p u : String)
    (ids : List String)
    (tA tC : HttpRequest → Except ε SessionsResponse)
    (tB tD : HttpRequest → Except ε Unit) :
    apiBasePath { sessionApiPathConfig := none } = "/sdp"
    ∧ apiBasePath { sessionApiPathConfig := some p } = p
    ∧ ( selfActiveRequest cfg).url = apiBasePath cfg ++ "/self/tokens/active"
    ∧ ( selfInvalidateRequest cfg ids).url
        = apiBasePath cfg ++ "/self/tokens/invalidate"
    ∧ ( adminActiveRequest cfg u).url = apiBasePath cfg ++ "/admin/tokens/active"
    ∧ ( adminInvalidateRequest cfg u ids).url
        = apiBasePath cfg ++ "/admin/tokens/invalidate"
    ∧ getActiveSessions cfg tA = tA ( selfActiveRequest cfg)
    ∧ terminateSessions cfg tB ids = tB ( selfInvalidateRequest cfg ids)
    ∧ getAdminActiveSessions cfg tC u = tC ( adminActiveRequest cfg u)
    ∧ terminateAdminSessions cfg tD u ids = tD ( adminInvalidateRequest cfg u ids) := by
  refine ⟨rfl, rfl, rfl, rfl, rfl, rfl, ?_, ?_, ?_, ?_⟩
  · unfold getActiveSessions
    cases tA ( selfActiveRequest cfg) <;> rfl
  · unfold terminateSessions
    cases tB ( selfInvalidateRequest cfg ids) <;> rfl
  · unfold getAdminActiveSessions
    cases tC ( adminActiveRequest cfg u) <;> rfl
  · unfold terminateAdminSessions
    cases tD ( adminInvalidateRequest cfg u ids) <;> rfl

/-- The confirmation-dialog state of `ActiveSessionsManagement`
(`useState` of `{ open, sessionId, isTerminateAll }`; the source's `open`
field is named `isOpen` here because `open` is a Lean keyword). -/
structure ConfirmDialog where
  isOpen : Bool
  sessionId : Option String
  isTerminateAll : Bool
deriving Repr, DecidableEq

/-- The reset value `{ open: false, sessionId: null, isTerminateAll: false }`
used everywhere the dialog is dismissed or consumed. -/
def closedDialog : ConfirmDialog :=
  { isOpen := false, sessionId := none, isTerminateAll := false }

/-- Component state of `ActiveSessionsManagement`: `sessions`, `loading`,
`error`, `success`, `confirmDialog`. -/
structure ViewState where
  sessions : List ActiveSession
  loading : Bool
  error : Option String
  success : Option String
  confirmDialog : ConfirmDialog
deriving Repr, DecidableEq

/-- Initial state of the self-service view (`useState` initializers). -/
def initialState : ViewState :=
  { sessions := [], loading := false, error := none, success := none,
    confirmDialog := closedDialog }

/-- A call to one of the four gateway operations, as issued by a
controller handler. -/
inductive GatewayCall
  | getActiveSessions
  | terminateSessions (tokenIds : List String)
  | getAdminActiveSessions (username : String)
  | terminateAdminSessions (username : String) (tokenIds : List String)
deriving Repr, DecidableEq

/-- Whether a gateway call is one of the two invalidate (destructive)
operations. -/
def GatewayCall.isInvalidate : GatewayCall → Bool
  | .terminateSessions _ => true
  | .terminateAdminSessions _ _ => true
  | _ => false

/-- The synchronous part of `fetchSessions` up to its await point:
`setLoading(true); setError(null)`, and one `getActiveSessions` gateway
call goes out. -/
def fetchStart (st : ViewState) : ViewState × List GatewayCall :=
  ({ st with loading := true, error := none }, [.getActiveSessions])

/-- The continuation of `fetchSessions` when its gateway call settles:
on success `setSessions(response.sessions || [])`, on failure
`setError(err instanceof Error ? err.message : 'Failed to fetch active
sessions')`; `finally { setLoading(false) }` either way. -/
def fetchResolve (st : ViewState) (result : Except Thrown SessionsResponse) :
    ViewState :=
  match result with
  | .ok response =>
      { st with sessions := response.sessions.getD [], loading := false }
  | .error t =>
      { st with error := some (errorMessageOr "Failed to fetch active sessions" t),
                loading := false }

/-- The ids the "terminate all others" handler computes:
`sessions.filter(s => !s.isCurrent).map(s => s.sessionId)`. -/
def nonCurrentIds (sessions : List ActiveSession) : List String :=
  (sessions.filter (fun s => !s.isCurrent)).map (fun s => s.sessionId)

/-- `handleTerminateSession(sessionId)` given the outcome of its
`terminateSessions([sessionId])` await: on success set the success
message and start a refresh (`fetchSessions()` runs its synchronous part:
`loading := true`, `error := none`, and a `getActiveSessions` call goes
out); on failure set the error message; `finally` reset `confirmDialog`.
The issued calls are the terminate call itself plus, on success, the
refresh fetch. -/
def handleTerminateSession (st : ViewState) (sessionId : String)
    (termResult : Except Thrown Unit) : ViewState × List GatewayCall :=
  match termResult with
  | .ok _ =>
      ({ st with success := some "Session terminated successfully",
                 loading := true, error := none, confirmDialog := closedDialog },
       [.terminateSessions [sessionId], .getActiveSessions])
  | .error t =>
      ({ st with error := some (errorMessageOr "Failed to terminate session" t),
                 confirmDialog := closedDialog },
       [.terminateSessions [sessionId]])

/-- `handleTerminateAllOtherSessions()` given the outcome of its
`terminateSessions(tokenIds)` await.  `tokenIds` is recomputed from the
state's current `sessions`; when it is empty the handler sets
`'No other sessions to terminate'` and returns before any gateway call
(the `finally` still resets the dialog).  Otherwise the terminate call is
issued; on success the success message is set and a refresh starts; on
failure the error message is set; `finally` resets `confirmDialog`. -/
def handleTerminateAllOtherSessions (st : ViewState)
    (termResult : Except Thrown Unit) : ViewState × List GatewayCall :=
  let tokenIds := nonCurrentIds st.sessions
  if tokenIds.length = 0 then
    ({ st with error := some "No other sessions to terminate",
               confirmDialog := closedDialog }, [])
  else
    match termResult with
    | .ok _ =>
        ({ st with success := some "All other sessions terminated successfully",
                   loading := true, error := none, confirmDialog := closedDialog },
         [.terminateSessions tokenIds, .getActiveSessions])
    | .error t =>
        ({ st with error := some (errorMessageOr "Failed to terminate all sessions" t),
                   confirmDialog := closedDialog },
         [.terminateSessions tokenIds])

/-- `openConfirmDialog(sessionId, isTerminateAll)`: record the pending
target and open the dialog; no gateway effect. -/
def openConfirmDialog (st : ViewState) (sessionId : Option String)
    (isTerminateAll : Bool) : ViewState :=
  { st with confirmDialog :=
      { isOpen := true, sessionId := sessionId, isTerminateAll := isTerminateAll } }

/-- `closeConfirmDialog()`: discard the pending target. -/
def closeConfirmDialog (st : ViewState) : ViewState :=
  { st with confirmDialog := closedDialog }

/-- `handleConfirm()`: dispatch on the stored dialog state.  The source
tests `confirmDialog.sessionId` for JavaScript truthiness, so a `null`
or empty-string id falls through and nothing happens. -/
def handleConfirm (st : ViewState) (termResult : Except Thrown Unit) :
    ViewState × List GatewayCall :=
  if st.confirmDialog.isTerminateAll then
    handleTerminateAllOtherSessions st termResult
  else
    match st.confirmDialog.sessionId with
    | some sessionId =>
        if sessionId = "" then (st, [])
        else handleTerminateSession st sessionId termResult
    | none => (st, [])

/-- The render-time condition of the loading spinner (line
`loading && sessions.length === 0 ? <CircularProgress/> : ...`). -/
def showsLoadingIndicator (st : ViewState) : Bool :=
  st.loading && st.sessions.length == 0

/-- A user or system event hitting the self-service view.  Each
constructor corresponds to one handler wired in the component's JSX or
effect: the per-session delete icon, the "Terminate All Other Sessions"
button, the dialog's Cancel button, the dialog's `onClose` dismissal, the
dialog's Terminate (confirm) button, the refresh icon, a 30-second timer
tick, and the completion of an in-flight fetch. -/
inductive SelfEvent
  | deleteClick (sessionId : String)
  | terminateAllClick
  | cancelClick
  | dialogDismiss
  | confirmClick (termResult : Except Thrown Unit)
  | refreshClick
  | timerTick
  | fetchDone (result : Except Thrown SessionsResponse)

/-- Whether an event is the affirmative confirmation action (the
dialog's Terminate button, wired to `handleConfirm`). -/
def SelfEvent.isConfirm : SelfEvent → Bool
  | .confirmClick _ => true
  | _ => false

/-- One step of the self-service view: the handler each event is wired
to in the source, with the gateway calls it issues. -/
def selfStep (st : ViewState) : SelfEvent → ViewState × List GatewayCall
  | .deleteClick sessionId => (openConfirmDialog st (some sessionId) false, [])
  | .terminateAllClick => (openConfirmDialog st none true, [])
  | .cancelClick => (closeConfirmDialog st, [])
  | .dialogDismiss => (closeConfirmDialog st, [])
  | .confirmClick r => handleConfirm st r
  | .refreshClick => fetchStart st
  | .timerTick => fetchStart st
  | .fetchDone r => (fetchResolve st r, [])

/-- Run a sequence of events through the self-service view, collecting
every gateway call issued along the way. -/
def selfRun (st : ViewState) : List SelfEvent → ViewState × List GatewayCall
  | [] => (st, [])
  | e :: es =>
      let step := selfStep st e
      let rest := selfRun step.1 es
      (rest.1, step.2 ++ rest.2)

/-- Component state of `AdminSessionsModal`: `sessions`, `loading`,
`error`, `success` (the target `username` is a prop, passed separately). -/
structure AdminState where
  sessions : List ActiveSession
  loading : Bool
  error : Option String
  success : Option String
deriving Repr, DecidableEq

/-- Initial state of the admin modal. -/
def adminInitialState : AdminState :=
  { sessions := [], loading := false, error := none, success := none }

/-- The synchronous part of the admin modal's `fetchSessions`:
`if (!username) return;` (JavaScript truthiness, so an empty-string
username also bails out), then `setLoading(true); setError(null)` and a
`getAdminActiveSessions(username)` call goes out. -/
def adminFetchStart (username : Option String) (st : AdminState) :
    AdminState × List GatewayCall :=
  match username with
  | none => (st, [])
  | some u =>
      if u = "" then (st, [])
      else ({ st with loading := true, error := none }, [.getAdminActiveSessions u])

/-- The continuation of the admin modal's `fetchSessions`: on success
`setSessions(response.sessions || [])`, on failure `setError(...)` with
fallback `'Failed to fetch sessions'`; `finally { setLoading(false) }`. -/
def adminFetchResolve (st : AdminState)
    (result : Except Thrown SessionsResponse) : AdminState :=
  match result with
  | .ok response =>
      { st with sessions := response.sessions.getD [], loading := false }
  | .error t =>
      { st with error := some (errorMessageOr "Failed to fetch sessions" t),
                loading := false }

/-- The admin modal's `handleTerminate(sessionId)` given the outcome of
its `terminateAdminSessions(username, [sessionId])` await:
`if (!username) return;`, then the terminate call is issued; on success
set the success message and start a refresh; on failure set the error
message.  There is no confirmation dialog and no `finally` clause in this
handler. -/
def handleTerminate (username : Option String) (st : AdminState)
    (sessionId : String) (termResult : Except Thrown Unit) :
    AdminState × List GatewayCall :=
  match username with
  | none => (st, [])
  | some u =>
      if u = "" then (st, [])
      else
        match termResult with
        | .ok _ =>
            ({ st with success := some "Session terminated successfully",
                       loading := true, error := none },
             [.terminateAdminSessions u [sessionId], .getAdminActiveSessions u])
        | .error t =>
            ({ st with error := some (errorMessageOr "Failed to terminate session" t) },
             [.terminateAdminSessions u [sessionId]])

/-- A user or system event hitting the admin sessions modal.  The
constructors are exactly the interactive controls the modal renders —
the per-session delete icon (wired directly to `handleTerminate`), the
refresh icon, the Close button / dialog dismissal — plus the completion
of an in-flight fetch.  The modal renders no confirmation dialog: no
event is an affirmative confirmation of a pending destructive action. -/
inductive AdminEvent
  | deleteClick (sessionId : String) (termResult : Except Thrown Unit)
  | refreshClick
  | closeClick
  | fetchDone (result : Except Thrown SessionsResponse)

/-- Whether an admin-modal event is an affirmative confirmation action.
The modal's JSX contains no confirmation dialog (the delete icon's
`onClick` is `() => handleTerminate(session.sessionId)` directly), so no
constructor qualifies. -/
def AdminEvent.isConfirm : AdminEvent → Bool
  | _ => false

/-- Whether an admin-modal event is the per-session delete click. -/
def AdminEvent.isDeleteClick : AdminEvent → Bool
  | .deleteClick _ _ => true
  | _ => false

/-- One step of the admin sessions modal.  `closeClick` models the
`useEffect` reset branch (`setSessions([]); setError(null);
setSuccess(null)`) that runs when the modal is no longer open. -/
def adminStep (username : Option String) (st : AdminState) :
    AdminEvent → AdminState × List GatewayCall
  | .deleteClick sessionId r => handleTerminate username st sessionId r
  | .refreshClick => adminFetchStart username st
  | .closeClick => ({ st with sessions := [], error := none, success := none }, [])
  | .fetchDone r => (adminFetchResolve st r, [])

/-- `AUTO_REFRESH_INTERVAL` from `ActiveSessionsManagement` (milliseconds). -/
def AUTO_REFRESH_INTERVAL : Nat := 30000

/-- State of the mount effect's `setInterval` timer under a mocked
clock: whether the view is mounted, whether the interval registered by
`setInterval(fetchSessions, AUTO_REFRESH_INTERVAL)` is still live,
milliseconds elapsed since the last interval fire (or since
registration), and how many times `fetchSessions` has been invoked. -/
structure TimerState where
  mounted : Bool
  intervalActive : Bool
  sinceLastFire : Nat
  fetchCount : Nat
deriving Repr, DecidableEq

/-- Timer state before the view is mounted. -/
def timerInit : TimerState :=
  { mounted := false, intervalActive := false, sinceLastFire := 0, fetchCount := 0 }

/-- Lifecycle events of the mount effect: mounting the view, advancing
the mocked clock, and tearing the view down. -/
inductive TimerEvent
  | mount
  | advance (ms : Nat)
  | unmount
deriving Repr, DecidableEq

/-- Semantics of the mount effect (`useEffect`): on mount, run
`fetchSessions()` once and register the interval; advancing the clock by
`ms` fires the live interval once per full `AUTO_REFRESH_INTERVAL`
elapsed (standard `setInterval` semantics under a mocked clock), each
fire invoking `fetchSessions`; the cleanup runs
`clearInterval(intervalId)` unconditionally. -/
def timerStep (st : TimerState) : TimerEvent → TimerState
  | .mount =>
      { mounted := true, intervalActive := true, sinceLastFire := 0,
        fetchCount := st.fetchCount + 1 }
  | .advance ms =>
      if st.intervalActive then
        { st with
          fetchCount := st.fetchCount + (st.sinceLastFire + ms) / AUTO_REFRESH_INTERVAL,
          sinceLastFire := (st.sinceLastFire + ms) % AUTO_REFRESH_INTERVAL }
      else st
  | .unmount => { st with mounted := false, intervalActive := false }

/-- Concrete fixture: the caller's current session. -/
def sess1 : ActiveSession :=
  { sessionId := "s1", deviceInfo := "Chrome on Windows", ipAddress := "192.168.1.1",
    loginTime := "2026-02-19T10:00:00Z", lastActivity := "2026-02-19T11:00:00Z",
    isCurrent := true }

/-- Concrete fixture: a non-current session. -/
def sess2 : ActiveSession :=
  { sessionId := "s2", deviceInfo := "Firefox on Linux", ipAddress := "10.0.0.1",
    loginTime := "2026-02-20T08:00:00Z", lastActivity := "2026-02-20T09:00:00Z",
    isCurrent := false }

/-- Concrete fixture: another non-current session. -/
def sess3 : ActiveSession :=
  { sessionId := "s3", deviceInfo := "Safari on macOS", ipAddress := "10.0.0.2",
    loginTime := "2026-02-21T08:00:00Z", lastActivity := "2026-02-21T09:00:00Z",
    isCurrent := false }

/-- Concrete fixture: a non-current session whose id is the empty
string. -/
def sessNoId : ActiveSession :=
  { sessionId := "", deviceInfo := "Edge on Windows", ipAddress := "10.0.0.3",
    loginTime := "2026-02-22T08:00:00Z", lastActivity := "2026-02-22T09:00:00Z",
    isCurrent := false }

/-- Concrete fixture: a fetch response holding `sess1` and `sess2`. -/
def resp12 : SessionsResponse := { sessions := some [sess1, sess2], totalCount := 2 }

/-- Concrete fixture: a fetch response holding `sess1` and `sess3`. -/
def resp13 : SessionsResponse := { sessions := some [sess1, sess3], totalCount := 2 }

/-- Concrete fixture: a malformed success response with a null
`sessions` field. -/
def respNull : SessionsResponse := { sessions := none, totalCount := 0 }

/-- Concrete fixture: a fetch response holding `sess1` and the
empty-id session `sessNoId`. -/
def respNoId : SessionsResponse := { sessions := some [sess1, sessNoId], totalCount := 2 }

/-- Claim C10: after every invocation of a termination handler in the
self-service view — gateway success, gateway failure, or the
zero-eligible-targets local short-circuit — the confirmation state is
reset to closed with no pending target (`open` false, `sessionId` null,
`isTerminateAll` false). -/
theorem C10_dialog_always_reset (st : ViewState) (sessionId : String)
    (r r2 : Except Thrown Unit) :
    ( handleTerminateSession st sessionId r).1.confirmDialog
      = { isOpen := false, sessionId := none, isTerminateAll := false }
    ∧ ( handleTerminateAllOtherSessions st r2).1.confirmDialog
      = { isOpen := false, sessionId := none, isTerminateAll := false } := by
  constructor
  · cases r <;> rfl
  · by_cases h : ( nonCurrentIds st.sessions).length = 0
    · simp [handleTerminateAllOtherSessions, h, closedDialog]
    · cases r2 <;> simp [handleTerminateAllOtherSessions, h, closedDialog]

/-- Claim C4: a gateway failure during a fetch moves the view to the
error state while the previously loaded session list is preserved
unchanged (the whole `loading` transition, start to failed resolve,
leaves `sessions` exactly as before), and the loading indicator is
rendered only when the current list is empty. -/
theorem C4_error_keeps_sessions (st st' : ViewState) (t : Thrown) :
    ( fetchResolve ( fetchStart st).1 (.error t)).sessions = st.sessions
    ∧ ( fetchResolve ( fetchStart st).1 (.error t)).error
        = some ( errorMessageOr "Failed to fetch active sessions" t)
    ∧ ( fetchResolve ( fetchStart st).1 (.error t)).loading = false
    ∧ ( showsLoadingIndicator st' = true → st'.sessions = []) := by
  refine ⟨rfl, rfl, rfl, fun h => ?_⟩
  simp [showsLoadingIndicator] at h
  exact h.2

/-- Witness for C4: concrete failing fetch over a loaded list, and a
concrete state with the spinner showing has an empty list. -/
theorem C4_error_keeps_sessions_witness :
    ( fetchResolve ( fetchStart { initialState with sessions := [sess1, sess2] }).1
        (.error (.jsError "Network error"))).sessions = [sess1, sess2]
    ∧ showsLoadingIndicator { initialState with loading := true } = true
    ∧ ({ initialState with loading := true } : ViewState).sessions = [] := by
  refine ⟨(C4_error_keeps_sessions { initialState with sessions := [sess1, sess2] }
    { initialState with loading := true } (.jsError "Network error")).1, by decide, ?_⟩
  exact (C4_error_keeps_sessions { initialState with sessions := [sess1, sess2] }
    { initialState with loading := true } (.jsError "Network error")).2.2.2 (by decide)

/-- Claim C5: confirming "terminate all others" when every session in
the list is current (zero non-current sessions) issues no gateway call
and produces the local message `'No other sessions to terminate'`;
the short-circuit happens before any request is sent. -/
theorem C5_zero_targets_local (st : ViewState) (r : Except Thrown Unit)
    (hAll : st.sessions.filter (fun s => !s.isCurrent) = [])
    (hDlg : st.confirmDialog.isTerminateAll = true) :
    ( handleConfirm st r).2 = []
    ∧ ( handleConfirm st r).1.error = some "No other sessions to terminate" := by
  have hids : nonCurrentIds st.sessions = [] := by simp [nonCurrentIds, hAll]
  constructor <;> simp [handleConfirm, hDlg, handleTerminateAllOtherSessions, hids]

/-- Concrete fixture: only the current session loaded, with the
terminate-all confirmation pending. -/
def stOnlyCurrent : ViewState :=
  { sessions := [sess1], loading := false, error := none, success := none,
    confirmDialog := { isOpen := true, sessionId := none, isTerminateAll := true } }

/-- Witness for C5: a state whose only session is the current one,
with the terminate-all confirmation pending. -/
theorem C5_zero_targets_local_witness :
    ( handleConfirm stOnlyCurrent (.ok ())).2 = [] := by
  exact (C5_zero_targets_local stOnlyCurrent (.ok ()) (by decide) (by decide)).1

/-- Claim C9: after every completed fetch in either session view, the
stored session list is always a genuine list: it equals the response's
`sessions` field when that field is a non-null array, and the empty list
when the field is missing or null. -/
theorem C9_sessions_always_list (st : ViewState) (ast : AdminState)
    (resp : SessionsResponse) (l : List ActiveSession) :
    (resp.sessions = some l →
      ( fetchResolve st (.ok resp)).sessions = l
      ∧ ( adminFetchResolve ast (.ok resp)).sessions = l)
    ∧ (resp.sessions = none →
      ( fetchResolve st (.ok resp)).sessions = []
      ∧ ( adminFetchResolve ast (.ok resp)).sessions = []) := by
  constructor <;> intro h <;> simp [fetchResolve, adminFetchResolve, h]

/-- Witness for C9: a well-formed response and a null-`sessions`
response, through both views. -/
theorem C9_sessions_always_list_witness :
    ( fetchResolve initialState (.ok resp12)).sessions = [sess1, sess2]
    ∧ ( adminFetchResolve adminInitialState (.ok respNull)).sessions = [] := by
  exact ⟨((C9_sessions_always_list initialState adminInitialState resp12
      [sess1, sess2]).1 rfl).1,
    ((C9_sessions_always_list initialState adminInitialState respNull
      [sess1, sess2]).2 rfl).2⟩

/-- Claim C7: the refresh interval is the fixed 30 000 ms constant;
mounting the view performs one initial fetch; advancing a mocked clock
by exactly one interval from the freshly mounted state triggers exactly
one additional fetch (2 in total); more generally one interval's advance
from any live-timer state adds exactly one fetch; and teardown clears
the interval unconditionally, from any state whatsoever. -/
theorem C7_timer_behavior (st : TimerState)
    (h1 : st.intervalActive = true)
    (h2 : st.sinceLastFire < AUTO_REFRESH_INTERVAL) :
    AUTO_REFRESH_INTERVAL = 30000
    ∧ ( timerStep timerInit .mount).fetchCount = 1
    ∧ ( timerStep ( timerStep timerInit .mount)
        (.advance AUTO_REFRESH_INTERVAL)).fetchCount = 2
    ∧ ( timerStep st (.advance AUTO_REFRESH_INTERVAL)).fetchCount = st.fetchCount + 1
    ∧ ∀ st' : TimerState, ( timerStep st' .unmount).intervalActive = false := by
  refine ⟨rfl, rfl, by decide, ?_, fun st' => rfl⟩
  simp only [timerStep, h1, if_true, AUTO_REFRESH_INTERVAL] at h2 ⊢
  omega

/-- Witness for C7: the freshly mounted view has a live interval and a
zero elapsed counter, and the theorem applies to it. -/
theorem C7_timer_behavior_witness :
    ( timerStep timerInit .mount).intervalActive = true
    ∧ ( timerStep ( timerStep timerInit .mount)
        (.advance AUTO_REFRESH_INTERVAL)).fetchCount
      = ( timerStep timerInit .mount).fetchCount + 1 := by
  exact ⟨by decide,
    (C7_timer_behavior ( timerStep timerInit .mount) (by decide) (by decide)).2.2.2.1⟩

/-- Counterexample for C3: a loaded list may contain a non-current
session whose `sessionId` is the empty string; clicking its delete
control and confirming issues no gateway call at all (the dispatch in
`handleConfirm` tests `confirmDialog.sessionId` for JavaScript
truthiness, and the empty string is falsy), instead of the claimed
one-element invalidate call. -/
theorem C3_counterexample :
    ( selfRun initialState
        [.fetchDone (.ok respNoId), .deleteClick "", .confirmClick (.ok ())]).2 = []
    ∧ sessNoId ∈ respNoId.sessions.getD []
    ∧ sessNoId.isCurrent = false
    ∧ sessNoId.sessionId = "" := by decide

/-- Claim C3 (amended): provided the targeted session's identifier is a
non-empty string, confirming a single-session termination calls the
invalidate operation with exactly the one-element set holding that id;
confirming "terminate all others" (when at least one non-current session
exists) calls it with exactly the ids of the sessions whose `isCurrent`
flag is false; and every id in that target set comes from a session with
`isCurrent` false, so the current-flagged session is always excluded. -/
theorem C3_amended_target_sets (st st2 : ViewState) (sessionId : String)
    (r r2 : Except Thrown Unit)
    (hId : sessionId ≠ "")
    (hDlg : st.confirmDialog
      = { isOpen := true, sessionId := some sessionId, isTerminateAll := false })
    (hDlg2 : st2.confirmDialog.isTerminateAll = true)
    (hSome : nonCurrentIds st2.sessions ≠ []) :
    ( handleConfirm st r).2.filter GatewayCall.isInvalidate
      = [.terminateSessions [sessionId]]
    ∧ ( handleConfirm st2 r2).2.filter GatewayCall.isInvalidate
      = [.terminateSessions ( nonCurrentIds st2.sessions)]
    ∧ ∀ id ∈ nonCurrentIds st2.sessions,
        ∃ s ∈ st2.sessions, s.isCurrent = false ∧ s.sessionId = id := by
  refine ⟨?_, ?_, ?_⟩
  · cases r <;>
      simp [handleConfirm, hDlg, hId, handleTerminateSession,
        GatewayCall.isInvalidate, List.filter]
  · have hlen : ¬ ( nonCurrentIds st2.sessions).length = 0 := by
      simpa [List.length_eq_zero] using hSome
    cases r2 <;>
      simp [handleConfirm, hDlg2, handleTerminateAllOtherSessions, hlen,
        GatewayCall.isInvalidate, List.filter]
  · intro id hid
    simp only [nonCurrentIds, List.mem_map, List.mem_filter] at hid
    obtain ⟨s, ⟨hs, hcur⟩, hsid⟩ := hid
    exact ⟨s, hs, by simpa using hcur, hsid⟩

/-- Concrete fixture: two sessions loaded, single-session confirmation
pending on `"s2"`. -/
def stSingleTarget : ViewState :=
  { sessions := [sess1, sess2], loading := false, error := none, success := none,
    confirmDialog := { isOpen := true, sessionId := some "s2", isTerminateAll := false } }

/-- Concrete fixture: two sessions loaded, terminate-all confirmation
pending. -/
def stAllTargets : ViewState :=
  { sessions := [sess1, sess2], loading := false, error := none, success := none,
    confirmDialog := { isOpen := true, sessionId := none, isTerminateAll := true } }

/-- Witness for the amended C3 at the concrete two-session states. -/
theorem C3_amended_target_sets_witness :
    ( handleConfirm stSingleTarget (.ok ())).2.filter GatewayCall.isInvalidate
      = [.terminateSessions ["s2"]]
    ∧ ( handleConfirm stAllTargets (.ok ())).2.filter GatewayCall.isInvalidate
      = [.terminateSessions ( nonCurrentIds stAllTargets.sessions)] := by
  exact ⟨(C3_amended_target_sets stSingleTarget stAllTargets "s2" (.ok ()) (.ok ())
      (by decide) (by decide) (by decide) (by decide)).1,
    (C3_amended_target_sets stSingleTarget stAllTargets "s2" (.ok ()) (.ok ())
      (by decide) (by decide) (by decide) (by decide)).2.1⟩

/-- Counterexample for C2: open the terminate-all dialog while the list
holds `sess1` (current) and `sess2` — at request time the non-current id
set is `["s2"]` — then let an auto-refresh replace the list with `sess1`
and `sess3` before the user confirms.  The confirmation issues the
invalidate call with `["s3"]`, a target set re-derived from the session
list at confirm time, not the `["s2"]` captured when the dialog was
opened. -/
theorem C2_counterexample :
    ( selfRun initialState
        [.fetchDone (.ok resp12), .terminateAllClick, .fetchDone (.ok resp13),
         .confirmClick (.ok ())]).2.filter GatewayCall.isInvalidate
      = [.terminateSessions ["s3"]]
    ∧ nonCurrentIds (resp12.sessions.getD []) = ["s2"]
    ∧ GatewayCall.terminateSessions ["s3"] ≠ .terminateSessions ["s2"] := by decide

/-- Claim C2 (amended): on affirmative confirmation, a single-session
termination executes the invalidate call with the (non-empty) sessionId
captured when the dialog was opened; the terminate-all confirmation
derives its target set from the session list as it stands at confirm
time (empty set short-circuiting to no call); and on cancel or dialog
dismissal the pending target is discarded with no gateway call. -/
theorem C2_amended_resolution (st st2 stc : ViewState) (sessionId : String)
    (r r2 : Except Thrown Unit)
    (hId : sessionId ≠ "")
    (hDlg2 : st2.confirmDialog.isTerminateAll = true) :
    ( selfStep ( openConfirmDialog st (some sessionId) false) (.confirmClick r)).2.filter
        GatewayCall.isInvalidate = [.terminateSessions [sessionId]]
    ∧ ( handleConfirm st2 r2).2.filter GatewayCall.isInvalidate
      = (if ( nonCurrentIds st2.sessions).length = 0 then []
         else [.terminateSessions ( nonCurrentIds st2.sessions)])
    ∧ ( selfStep stc .cancelClick).2 = []
    ∧ ( selfStep stc .cancelClick).1.confirmDialog = closedDialog
    ∧ ( selfStep stc .dialogDismiss).2 = []
    ∧ ( selfStep stc .dialogDismiss).1.confirmDialog = closedDialog := by
  refine ⟨?_, ?_, rfl, rfl, rfl, rfl⟩
  · cases r <;>
      simp [selfStep, openConfirmDialog, handleConfirm, hId, handleTerminateSession,
        GatewayCall.isInvalidate, List.filter]
  · by_cases hL : ( nonCurrentIds st2.sessions).length = 0
    · simp [handleConfirm, hDlg2, handleTerminateAllOtherSessions, hL]
    · cases r2 <;>
        simp [handleConfirm, hDlg2, handleTerminateAllOtherSessions, hL,
          GatewayCall.isInvalidate, List.filter]

/-- Witness for the amended C2 at concrete states. -/
theorem C2_amended_resolution_witness :
    ( selfStep ( openConfirmDialog stAllTargets (some "s2") false)
        (.confirmClick (.ok ()))).2.filter GatewayCall.isInvalidate
      = [.terminateSessions ["s2"]]
    ∧ ( selfStep stAllTargets .cancelClick).2 = [] := by
  exact ⟨(C2_amended_resolution stAllTargets stAllTargets stAllTargets "s2"
      (.ok ()) (.ok ()) (by decide) (by decide)).1,
    (C2_amended_resolution stAllTargets stAllTargets stAllTargets "s2"
      (.ok ()) (.ok ()) (by decide) (by decide)).2.2.1⟩

/-- Helper: a confirmation dispatch issues at most one invalidate call,
whichever branch it takes. -/
theorem countP_invalidate_handleConfirm (st : ViewState) (r : Except Thrown Unit) :
    ( handleConfirm st r).2.countP GatewayCall.isInvalidate ≤ 1 := by
  by_cases hA : st.confirmDialog.isTerminateAll
  · by_cases hL : ( nonCurrentIds st.sessions).length = 0
    · simp [handleConfirm, hA, handleTerminateAllOtherSessions, hL]
    · cases r <;>
        simp [handleConfirm, hA, handleTerminateAllOtherSessions, hL,
          GatewayCall.isInvalidate, List.countP_cons, List.countP_nil]
  · cases hS : st.confirmDialog.sessionId with
    | none => simp [handleConfirm, hA, hS]
    | some sid =>
        by_cases hE : sid = ""
        · simp [handleConfirm, hA, hS, hE]
        · cases r <;>
            simp [handleConfirm, hA, hS, hE, handleTerminateSession,
              GatewayCall.isInvalidate, List.countP_cons, List.countP_nil]

/-- Counterexample for C1: in the admin sessions modal the per-session
delete icon's `onClick` is wired directly to `handleTerminate`, so a
single click — an event that is not an affirmative confirmation, in a
view that renders no confirmation dialog at all — issues the admin
invalidate call. -/
theorem C1_counterexample :
    ( adminStep (some "alice")
        { sessions := [sess2], loading := false, error := none, success := none }
        (.deleteClick "s2" (.ok ()))).2.filter GatewayCall.isInvalidate
      = [.terminateAdminSessions "alice" ["s2"]]
    ∧ AdminEvent.isConfirm (.deleteClick "s2" (.ok ())) = false := by decide

/-- Claim C1 (amended): in the self-service view, an invalidate call is
issued only by the affirmative confirmation action (the dialog's
Terminate button) and each event issues at most one invalidate call; in
the admin sessions modal — which renders no confirmation dialog — an
invalidate call is issued only by the per-session delete click, again at
most one per event. -/
theorem C1_amended_confirmation_gate (st : ViewState) (e : SelfEvent)
    (u : Option String) (ast : AdminState) (ae : AdminEvent) :
    (( selfStep st e).2.countP GatewayCall.isInvalidate ≤ 1)
    ∧ (∀ c ∈ ( selfStep st e).2, c.isInvalidate = true → e.isConfirm = true)
    ∧ (( adminStep u ast ae).2.countP GatewayCall.isInvalidate ≤ 1)
    ∧ (∀ c ∈ ( adminStep u ast ae).2, c.isInvalidate = true →
        ae.isDeleteClick = true) := by
  refine ⟨?_, ?_, ?_, ?_⟩
  · cases e with
    | confirmClick r => exact countP_invalidate_handleConfirm st r
    | deleteClick sid => simp [selfStep]
    | terminateAllClick => simp [selfStep]
    | cancelClick => simp [selfStep]
    | dialogDismiss => simp [selfStep]
    | refreshClick =>
        simp [selfStep, fetchStart, GatewayCall.isInvalidate,
          List.countP_cons, List.countP_nil]
    | timerTick =>
        simp [selfStep, fetchStart, GatewayCall.isInvalidate,
          List.countP_cons, List.countP_nil]
    | fetchDone r => simp [selfStep]
  · cases e with
    | confirmClick r => intro c _ _; rfl
    | deleteClick sid => intro c hc; simp [selfStep] at hc
    | terminateAllClick => intro c hc; simp [selfStep] at hc
    | cancelClick => intro c hc; simp [selfStep] at hc
    | dialogDismiss => intro c hc; simp [selfStep] at hc
    | refreshClick =>
        intro c hc hinv
        simp [selfStep, fetchStart] at hc
        rw [hc] at hinv
        simp [GatewayCall.isInvalidate] at hinv
    | timerTick =>
        intro c hc hinv
        simp [selfStep, fetchStart] at hc
        rw [hc] at hinv
        simp [GatewayCall.isInvalidate] at hinv
    | fetchDone r => intro c hc; simp [selfStep] at hc
  · cases ae with
    | deleteClick sid r =>
        cases u with
        | none => simp [adminStep, handleTerminate]
        | some un =>
            by_cases hE : un = ""
            · simp [adminStep, handleTerminate, hE]
            · cases r <;>
                simp [adminStep, handleTerminate, hE, GatewayCall.isInvalidate,
                  List.countP_cons, List.countP_nil]
    | refreshClick =>
        cases u with
        | none => simp [adminStep, adminFetchStart]
        | some un =>
            by_cases hE : un = "" <;>
              simp [adminStep, adminFetchStart, hE, GatewayCall.isInvalidate,
                List.countP_cons, List.countP_nil]
    | closeClick => simp [adminStep]
    | fetchDone r => simp [adminStep]
  · cases ae with
    | deleteClick sid r => intro c _ _; rfl
    | refreshClick =>
        intro c hc hinv
        cases u with
        | none => simp [adminStep, adminFetchStart] at hc
        | some un =>
            by_cases hE : un = ""
            · simp [adminStep, adminFetchStart, hE] at hc
            · simp [adminStep, adminFetchStart, hE] at hc
              rw [hc] at hinv
              simp [GatewayCall.isInvalidate] at hinv
    | closeClick => intro c hc; simp [adminStep] at hc
    | fetchDone r => intro c hc; simp [adminStep] at hc

/-- Witness for the amended C1 at a concrete confirmation event and a
concrete admin delete click. -/
theorem C1_amended_confirmation_gate_witness :
    ( selfStep stAllTargets (.confirmClick (.ok ()))).2.countP
        GatewayCall.isInvalidate ≤ 1
    ∧ ( adminStep (some "alice") adminInitialState
        (.deleteClick "s2" (.ok ()))).2.countP GatewayCall.isInvalidate ≤ 1 := by
  exact ⟨(C1_amended_confirmation_gate stAllTargets (.confirmClick (.ok ()))
      (some "alice") adminInitialState (.deleteClick "s2" (.ok ()))).1,
    (C1_amended_confirmation_gate stAllTargets (.confirmClick (.ok ()))
      (some "alice") adminInitialState (.deleteClick "s2" (.ok ()))).2.2.1⟩
